import Mathlib

/-!
Verification of the nap_msg relay (moltbot-QQ) against its specification.

The development shallowly embeds the Python modules of `src/nap_msg`:

* `client.py`  — the correlation layer (`NapcatRelayClient._wait_for_response`,
  `send_command`) that matches outbound commands to reply frames by the
  `echo` correlation token;
* `watch.py`   — the watch pipeline (`_watch_loop` body, `_extract_text_and_record`,
  `_strip_cq_and_whitespace`, `_resolve_text`, the accept test of the
  `_fetch_voice` poll loop);
* `rpc.py`     — the line-oriented JSON-RPC server (`_parse_target_from_params`,
  `_handle_request`, `_handle_message_send`, `_handle_send`,
  `_handle_unsubscribe`, `_write_result` / `_write_error`).

Modelling conventions, used consistently below:

* JSON values are the inductive `Json`; a Python dict is an association list
  `List (String × Json)` (insertion order preserved, keys unique in all inputs
  considered).  `dict.get(k)` returning Python `None` for a missing key is
  modelled by `jget` returning `Json.null`, since the code never distinguishes
  a missing key from an explicit `null`.
* Python truthiness is `Json.truthy`; `a or b` is `pyOr`.
* Attribute lookups on values that are not dicts (where CPython would raise
  `AttributeError`) are modelled as returning `Json.null`; no claim below
  exercises such inputs.
* `str.strip` / `lstrip` / `splitlines` / `lower` are modelled for the ASCII
  subset the repository handles (whitespace set, \n, \r\n and \r line breaks).
* Blocking reads from the websocket are modelled by passing the sequence of
  decoded inbound frames as a list; exhausting the list without an acceptable
  frame models the `asyncio.TimeoutError` path.
* External effect outcomes (Tencent credentials, the voice download, the
  `sentence_recognize` call of the `asr` module) are parameters of the step
  functions, covering both their success and their raised-exception outcomes.
-/

/-- JSON value, mirroring what `json.loads` produces for the frames the relay
handles.  Numbers are integers; the repository never inspects float payloads. -/
inductive Json where
  | null
  | bool (b : Bool)
  | num (n : Int)
  | str (s : String)
  | arr (items : List Json)
  | obj (fields : List (String × Json))
deriving Repr

/-- Lookup in a decoded JSON object (Python `data.get(key)`, absent key gives
`Json.null` just as `dict.get` gives `None`). -/
def jget : List (String × Json) → String → Json
  | [], _ => Json.null
  | (k, v) :: rest, key => if k = key then v else jget rest key

/-- Lookup through a `Json` value; non-objects yield `Json.null`. -/
def jgetJ : Json → String → Json
  | Json.obj fields, key => jget fields key
  | _, _ => Json.null

/-- Python truthiness of a JSON value (`None`, `False`, `0`, `""`, `[]`, `{}`
are falsy). -/
def Json.truthy : Json → Bool
  | .null => false
  | .bool b => b
  | .num n => n != 0
  | .str s => !s.isEmpty
  | .arr l => !l.isEmpty
  | .obj l => !l.isEmpty

/-- Comparison of a JSON value against a string literal: the meaning of
Python `value == "literal"` for a value decoded from JSON. -/
def Json.isStrEq : Json → String → Bool
  | .str s, t => s = t
  | _, _ => false

/-- Python `a or b` on JSON values. -/
def pyOr (a b : Json) : Json := if a.truthy then a else b

/-- Test for the JSON null value (Python `v is None`). -/
def Json.isNull : Json → Bool
  | .null => true
  | _ => false

/-- View a JSON value as an object field list (empty for non-objects). -/
def Json.asObj : Json → List (String × Json)
  | .obj fields => fields
  | _ => []

/-- Python `str()` of a JSON scalar, as used by the filter comparisons
(`str(event.get("group_id"))`).  Containers never reach a `str()` call in the
properties verified here, so their rendering is a placeholder. -/
def Json.pyStr : Json → String
  | .null => "None"
  | .bool b => if b then "True" else "False"
  | .num n => toString n
  | .str s => s
  | .arr _ => "<list>"
  | .obj _ => "<dict>"

/-- Characters of the Python `str.strip()` default whitespace set (ASCII). -/
def isPySpace (c : Char) : Bool :=
  c = ' ' || c = '\t' || c = '\n' || c = '\r' || c = '\x0b' || c = '\x0c'

/-- Python `str.strip()` (ASCII whitespace). -/
def pyStrip (s : String) : String :=
  String.mk (((s.toList.dropWhile isPySpace).reverse.dropWhile isPySpace).reverse)

/-- Python `str.lstrip()` (ASCII whitespace). -/
def pyLStrip (s : String) : String :=
  String.mk (s.toList.dropWhile isPySpace)

/-- Helper for `pySplitlines`: accumulate the current line (reversed). -/
def pySplitlinesAux : List Char → List Char → List String
  | [], acc => if acc.isEmpty then [] else [String.mk acc.reverse]
  | '\r' :: '\n' :: rest, acc => String.mk acc.reverse :: pySplitlinesAux rest []
  | '\r' :: rest, acc => String.mk acc.reverse :: pySplitlinesAux rest []
  | '\n' :: rest, acc => String.mk acc.reverse :: pySplitlinesAux rest []
  | c :: rest, acc => pySplitlinesAux rest (c :: acc)

/-- Python `str.splitlines()` for the \n, \r\n and \r line boundaries. -/
def pySplitlines (s : String) : List String := pySplitlinesAux s.toList []

/-- Python `s.startswith(pre)`. -/
def strStarts (s pre : String) : Bool :=
  pre.toList.isPrefixOf s.toList

/-- Python `str.lower()` (ASCII). -/
def pyLower (s : String) : String := String.mk (s.toList.map Char.toLower)

/-- Python character-indexed slice `s[n:]`. -/
def strDrop (s : String) (n : Nat) : String := String.mk (s.toList.drop n)

/-- Truthiness of an optional Python string (`None` and `""` are falsy). -/
def optStrTruthy : Option String → Bool
  | none => false
  | some s => !s.isEmpty

/-- Python `text.split(":", 1)[1]`: everything after the first colon.  Callers
below only invoke it on strings known to contain a colon. -/
def afterFirstColon (s : String) : String :=
  match s.toList.dropWhile (fun c => c ≠ ':') with
  | [] => s
  | _ :: rest => String.mk rest

/-- Digit-string parser used by the model of Python `int(str)`. -/
def parseDigits : List Char → Option Nat
  | [] => none
  | ds =>
    if ds.all Char.isDigit then
      some (ds.foldl (fun a c => a * 10 + (c.toNat - '0'.toNat)) 0)
    else none

/-- Model of Python `int(str)` for optionally signed decimal literals. -/
def parseIntStr (s : String) : Option Int :=
  match s.toList with
  | '-' :: ds => (parseDigits ds).map (fun n => -(n : Int))
  | '+' :: ds => (parseDigits ds).map (fun n => (n : Int))
  | ds => (parseDigits ds).map (fun n => (n : Int))

/-- Model of the `rpc.py` coercion of a subscription id: an `int` (Python
`bool` is an `int` instance, `True == 1`) is used directly, anything else goes
through `int(...)`, whose failure is `none`. -/
def pyToInt : Json → Option Int
  | Json.num n => some n
  | Json.bool b => some (if b then 1 else 0)
  | Json.str s => parseIntStr (pyStrip s)
  | _ => none

/-! ### client.py — commands and the correlation wait loop -/

/-- Command actions of `messages.CommandType`. -/
inductive CommandType where
  | sendGroupMsg
  | sendGroupForwardMsg
  | sendPrivateMsg
deriving Repr, DecidableEq

/-- Wire name of a command action (`CommandType.value`). -/
def CommandType.value : CommandType → String
  | .sendGroupMsg => "send_group_msg"
  | .sendGroupForwardMsg => "send_group_forward_msg"
  | .sendPrivateMsg => "send_private_msg"

/-- The `messages.Command` envelope: action, params and the fresh correlation
token `echo` generated at construction time. -/
structure Command where
  action : CommandType
  params : List (String × Json)
  echo : String

/-- The `Command.as_dict` wire frame. -/
def Command.asDict (c : Command) : List (String × Json) :=
  [("action", Json.str c.action.value),
   ("params", Json.obj c.params),
   ("echo", Json.str c.echo)]

/-- Body decision of `NapcatRelayClient._wait_for_response` applied to a
stream of decoded inbound frames: skip `meta_event` frames, skip frames whose
`echo` is truthy and differs from the awaited token, return the first
remaining frame.  `none` models exhausting the stream without an acceptable
frame, i.e. the `asyncio.TimeoutError` path of the enclosing call. -/
def waitForResponse (echo : String) : List (List (String × Json)) → Option (List (String × Json))
  | [] => none
  | f :: rest =>
    if (jget f "post_type").isStrEq "meta_event" then waitForResponse echo rest
    else if (jget f "echo").truthy && !(jget f "echo").isStrEq echo then waitForResponse echo rest
    else some f

/-- The structured timeout outcome built by `send_command` when
`_wait_for_response` times out. -/
def timeoutResult (echo : String) : List (String × Json) :=
  [("status", Json.str "timeout"), ("echo", Json.str echo)]

/-- `NapcatRelayClient.send_command`: send the command, then either the frame
accepted by `_wait_for_response` or, on timeout, the structured
`status = "timeout"` mapping carrying the command token. -/
def sendCommand (c : Command) (frames : List (List (String × Json))) : List (String × Json) :=
  match waitForResponse c.echo frames with
  | some f => f
  | none => timeoutResult c.echo

/-! ### watch.py — the event pipeline -/

/-- Helper for the CQ-code stripper: match a fixed lowercase pattern
case-insensitively and return the remaining characters. -/
def matchPatCI : List Char → List Char → Option (List Char)
  | [], rest => some rest
  | _, [] => none
  | p :: ps, c :: rest => if c.toLower = p then matchPatCI ps rest else none

/-- Helper for the CQ-code stripper: drop characters up to and including the
next right bracket (the `[^\]]*\]` tail of the pattern). -/
def skipToRBracket : List Char → Option (List Char)
  | [] => none
  | ']' :: rest => some rest
  | _ :: rest => skipToRBracket rest

/-- One attempted match of the regex `\[CQ:(face|image)[^\]]*\]` (IGNORECASE)
at the head of the character list, returning the characters after the match. -/
def cqMatch (cs : List Char) : Option (List Char) :=
  match matchPatCI "[cq:face".toList cs with
  | some after => skipToRBracket after
  | none =>
    match matchPatCI "[cq:image".toList cs with
    | some after => skipToRBracket after
    | none => none

/-- Left-to-right non-overlapping removal of CQ-code matches, fuelled by the
input length (each step consumes at least one character, so the initial fuel
never runs out). -/
def stripCqFuel : Nat → List Char → List Char
  | 0, cs => cs
  | _ + 1, [] => []
  | n + 1, c :: rest =>
    match cqMatch (c :: rest) with
    | some after => stripCqFuel n after
    | none => c :: stripCqFuel n rest

/-- The `re.sub` call of `watch._strip_cq_and_whitespace`. -/
def stripCqCodes (s : String) : String :=
  String.mk (stripCqFuel s.toList.length s.toList)

/-- `watch._strip_cq_and_whitespace`: drop CQ face/image codes, keep the
stripped non-blank lines joined by newline, strip the result. -/
def stripCqAndWhitespace (text : String) : String :=
  let t := stripCqCodes text
  let lines := ((pySplitlines t).map pyStrip).filter (fun l => !l.isEmpty)
  pyStrip (String.intercalate "\n" lines)

/-- Accumulating pass of `watch._extract_text_and_record` over the message
segment list: collect `text` segment payloads in order, remember the first
usable `record` (voice) segment path, skip `at` and everything else. -/
def extractItemsAux : List Json → List String → Option String → List String × Option String
  | [], texts, recFile => (texts.reverse, recFile)
  | item :: rest, texts, recFile =>
    match item with
    | Json.obj kvs =>
      let segType := jget kvs "type"
      let segData := pyOr (jget kvs "data") (Json.obj [])
      if segType.isStrEq "at" then extractItemsAux rest texts recFile
      else if segType.isStrEq "text" then
        match jgetJ segData "text" with
        | Json.str txt => extractItemsAux rest (txt :: texts) recFile
        | _ => extractItemsAux rest texts recFile
      else if segType.isStrEq "record" && recFile.isNone then
        match pyOr (jgetJ segData "path") (jgetJ segData "file") with
        | Json.str recPath =>
          if (pyStrip recPath).isEmpty then extractItemsAux rest texts recFile
          else extractItemsAux rest texts (some (pyStrip recPath))
        | _ => extractItemsAux rest texts recFile
      else extractItemsAux rest texts recFile
    | _ => extractItemsAux rest texts recFile

/-- `watch._extract_text_and_record`: concatenated text segments (or the whole
string when the `message` field is a raw string) and the first voice segment
path. -/
def extractTextAndRecord (event : List (String × Json)) : Option String × Option String :=
  match jget event "message" with
  | Json.str s => (some s, none)
  | Json.arr items =>
    let (parts, recFile) := extractItemsAux items [] none
    ((if parts.isEmpty then none else some (String.intercalate "\n" parts)), recFile)
  | _ => (none, none)

/-- Outcomes of the external stages of `watch._resolve_text`: whether both
Tencent credentials are configured, what `_fetch_voice` produced (`Except.error`
models a raised exception, `Except.ok` the returned bytes), and what the
`asr.sentence_recognize` call produced. -/
structure AsrEnv where
  hasCreds : Bool
  fetchResult : Except Unit (List Nat)
  recognizeResult : Except Unit String
deriving Repr

/-- `watch._resolve_text`: keep truthy text as is; otherwise transcribe the
voice attachment, degrading every failure (missing credentials, fetch
exception, empty bytes, recognizer exception) to `none`.  The function is
total: no failure propagates to the caller. -/
def resolveText (cleanText recordFile : Option String) (env : AsrEnv) : Option String :=
  if optStrTruthy cleanText then cleanText
  else if !optStrTruthy recordFile then none
  else if !env.hasCreds then none
  else
    match env.fetchResult with
    | Except.error _ => none
    | Except.ok audio =>
      if audio.isEmpty then none
      else
        match env.recognizeResult with
        | Except.error _ => none
        | Except.ok t => some t

/-- First line of the text whose `strip()` is non-blank, defaulting to the
whole text (the `next(...)` expression of `watch._watch_loop`). -/
def firstNonBlankLine (text : String) : String :=
  match (pySplitlines text).find? (fun ln => !(pyStrip ln).isEmpty) with
  | some ln => ln
  | none => text

/-- The ignore-prefix test of `watch._watch_loop`: the prefix list is truthy
and the `lstrip()`-ed first non-blank line starts with one of the prefixes. -/
def prefixBlocked (ignorePrefixes : List String) (text : String) : Bool :=
  !ignorePrefixes.isEmpty &&
    ignorePrefixes.any (fun p => strStarts (pyLStrip (firstNonBlankLine text)) p)

/-- The filter of `watch._watch_loop` lines 67-70: a configured truthy
`from_group` / `from_user` value blocks events whose corresponding field does
not render (via `str()`) to the configured value. -/
def fromFilterBlocks (filter : Option String) (value : Json) : Bool :=
  match filter with
  | none => false
  | some f => !f.isEmpty && value.pyStr ≠ f

/-- Lines 73-83 of `watch._watch_loop`: for truthy extracted text, clean it and
drop the event (result `none`) when the cleaned text is empty or its first
non-blank line matches an ignored prefix; for falsy text, drop unless a voice
segment is present.  `some textContent` carries the text that flows on to
`_resolve_text`. -/
def textGate (textContent0 recordFile : Option String) (ignorePrefixes : List String) :
    Option (Option String) :=
  if optStrTruthy textContent0 then
    if (stripCqAndWhitespace (textContent0.getD "")).isEmpty then none
    else if prefixBlocked ignorePrefixes (stripCqAndWhitespace (textContent0.getD "")) then none
    else some (some (stripCqAndWhitespace (textContent0.getD "")))
  else if !optStrTruthy recordFile then none
  else some textContent0

/-- Python dict assignment `event["raw_message"] = v` on the association-list
model: replace in place or append. -/
def setField : List (String × Json) → String → Json → List (String × Json)
  | [], k, v => [(k, v)]
  | (k0, v0) :: rest, k, v =>
    if k0 = k then (k0, v) :: rest else (k0, v0) :: setField rest k v

/-- The field projection of `watch._watch_loop` line 91 (`KEEP_FIELDS`
membership and a non-`None` value). -/
def keepFields : List String :=
  ["user_id", "group_id", "message_type", "message_id", "raw_message"]

/-- Projection of an emitted event onto `keepFields` with non-null values. -/
def filterKeep (event : List (String × Json)) : List (String × Json) :=
  event.filter (fun kv => keepFields.contains kv.1 && !kv.2.isNull)

/-- Lines 85-94 of `watch._watch_loop`: resolve the text (voice fallback
included), store a truthy resolved text under `raw_message`, drop the event
when nothing resolved and the text was falsy, otherwise emit the filtered
record. -/
def emitPhase (event : List (String × Json)) (textContent recordFile : Option String)
    (env : AsrEnv) : Option (List (String × Json)) :=
  if optStrTruthy (resolveText textContent recordFile env) then
    some (filterKeep (setField event "raw_message"
      (Json.str ((resolveText textContent recordFile env).getD ""))))
  else if !optStrTruthy textContent then none
  else some (filterKeep event)

/-- Body of `watch._watch_loop` for one decoded dict event (lines 65-94):
`none` when the event is dropped, `some record` when the filtered record is
written to stdout.  The ASR environment parameterises the external stages of
`_resolve_text`. -/
def watchStepObj (fromGroup fromUser : Option String) (ignorePrefixes : List String)
    (env : AsrEnv) (event : List (String × Json)) : Option (List (String × Json)) :=
  if !(jget event "post_type").isStrEq "message" then none
  else if fromFilterBlocks fromGroup (jget event "group_id") then none
  else if fromFilterBlocks fromUser (jget event "user_id") then none
  else
    match textGate (extractTextAndRecord event).1 (extractTextAndRecord event).2
        ignorePrefixes with
    | none => none
    | some textContent =>
      emitPhase event textContent (extractTextAndRecord event).2 env

/-- Body of `watch._watch_loop` for one decoded inbound frame, including the
line 63 guard dropping non-dict frames. -/
def watchStep (fromGroup fromUser : Option String) (ignorePrefixes : List String)
    (env : AsrEnv) (eventJ : Json) : Option (List (String × Json)) :=
  match eventJ with
  | Json.obj event => watchStepObj fromGroup fromUser ignorePrefixes env event
  | _ => none

/-- Accept test of the `watch._fetch_voice` poll loop (lines 182-189): a
candidate reply is taken only when it is a dict, is not a `meta_event` frame,
does not carry a truthy mismatching `echo`, and has a truthy `status`. -/
def fetchVoiceAccepts (echo : String) (candidate : Json) : Bool :=
  match candidate with
  | Json.obj kvs =>
    !(jget kvs "post_type").isStrEq "meta_event" &&
      !((jget kvs "echo").truthy && !(jget kvs "echo").isStrEq echo) &&
      (jget kvs "status").truthy
  | _ => false

/-! ### rpc.py — the JSON-RPC control server -/

/-- `rpc._parse_target_from_params`: resolve the target id and group flag from
`to` / `chatId` / `chat_id` (first truthy wins), honouring the
`group-` / `group:` / `user-` / `user:` prefixes and falling back to the
`isGroup` flag (string flags are parsed, anything non-boolean becomes `none`). -/
def parseTargetFromParams (params : List (String × Json)) : Option String × Option Bool :=
  let rawTo := pyOr (pyOr (jget params "to") (jget params "chatId")) (jget params "chat_id")
  let isGroup0 := jget params "isGroup"
  let p :=
    match rawTo with
    | Json.str _ | Json.num _ | Json.bool _ =>
      let text := pyStrip rawTo.pyStr
      let lower := pyLower text
      if strStarts lower "group-" then (some (pyStrip (strDrop text 6)), Json.bool true)
      else if strStarts lower "group:" then (some (pyStrip (afterFirstColon text)), Json.bool true)
      else if strStarts lower "user-" then (some (pyStrip (strDrop text 5)), Json.bool false)
      else if strStarts lower "user:" then (some (pyStrip (afterFirstColon text)), Json.bool false)
      else (some text, isGroup0)
    | _ => (none, isGroup0)
  let isGroup1 :=
    match p.2 with
    | Json.str s => Json.bool (["1", "true", "yes", "y"].contains (pyLower s))
    | j => j
  (p.1, match isGroup1 with | Json.bool b => some b | _ => none)

/-- A response line written by the server: either a result object or an error
object, always tagged with the request id. -/
inductive RpcOut where
  | result (id : Json) (res : Json)
  | rpcError (id : Json) (code : Int) (msg : String)
deriving Repr

/-- `RpcServer._write_result`: silently write nothing when the request id is
null/absent (a notification). -/
def writeResult (reqId : Json) (res : Json) : List RpcOut :=
  if reqId.isNull then [] else [RpcOut.result reqId res]

/-- `RpcServer._write_error`: silently write nothing when the request id is
null/absent (a notification). -/
def writeError (reqId : Json) (code : Int) (msg : String) : List RpcOut :=
  if reqId.isNull then [] else [RpcOut.rpcError reqId code msg]

/-- Mutable server state: the live watch tasks keyed by subscription id, and
the monotonically assigned next id. -/
structure ServerState where
  watchTasks : List Nat
  nextSubscriptionId : Nat
deriving Repr, DecidableEq

/-- `RpcServer._cancel_subscription`: pop the task for the id; cancelling an
absent subscription is a no-op. -/
def cancelSubscription (st : ServerState) (subId : Int) : ServerState :=
  { st with watchTasks := st.watchTasks.filter (fun t => (t : Int) ≠ subId) }

/-- `RpcServer._handle_unsubscribe`: coerce the subscription id, answer
`-32602` when that fails, otherwise cancel (a no-op when already gone) and
reply with the benign ok object. -/
def handleUnsubscribe (st : ServerState) (params : List (String × Json)) (reqId : Json) :
    ServerState × List RpcOut :=
  match pyToInt (jget params "subscription") with
  | none => (st, writeError reqId (-32602) "subscription is required")
  | some subId =>
    (cancelSubscription st subId,
     writeResult reqId (Json.obj [("ok", Json.bool true)]))

/-- `RpcServer._handle_subscribe`, with the combined
`self._default_url or os.getenv("NAPCAT_URL")` fallback supplied as `envUrl`:
fail with `-32000` when no endpoint is available, otherwise register a fresh
subscription task and reply with its id. -/
def handleSubscribe (st : ServerState) (envUrl : Option String)
    (params : List (String × Json)) (reqId : Json) : ServerState × List RpcOut :=
  if !(jget params "napcat_url").truthy && !optStrTruthy envUrl then
    (st, writeError reqId (-32000) "NAPCAT_URL is required")
  else
    let subId := st.nextSubscriptionId
    ({ watchTasks := st.watchTasks ++ [subId], nextSubscriptionId := subId + 1 },
     writeResult reqId (Json.obj [("subscription", Json.num (Int.ofNat subId))]))

/-- `RpcServer._handle_send`, with the outcome of the Napcat client call
supplied as `sendOutcome` (`Except.error` models a raised exception whose text
becomes the error message).  Every failure — missing payload, unsupported
channel, client exception — is reported as a `-32000` error response. -/
def handleSendOutcome (params : List (String × Json))
    (sendOutcome : Except String (List (String × Json))) :
    Except String (List (String × Json)) :=
  let channel0 := pyOr (jget params "channel") (jget params "type")
  let groupId := jget params "group_id"
  let userId := jget params "user_id"
  let channel :=
    if !channel0.truthy then
      if groupId.truthy then Json.str "group"
      else if userId.truthy then Json.str "private"
      else channel0
    else channel0
  if channel.isStrEq "group_forward" then
    if !(pyOr (jget params "messages") (jget params "nodes")).truthy then
      Except.error "messages is required for group_forward"
    else sendOutcome
  else if channel.isStrEq "group" then
    if !(jget params "message").truthy then Except.error "message is required for group send"
    else sendOutcome
  else if channel.isStrEq "private" then
    if !(jget params "message").truthy then Except.error "message is required for private send"
    else sendOutcome
  else Except.error "Unsupported channel; use group, group_forward, or private"

/-- Response written by `RpcServer._handle_send`: a `-32000` error for any
raised exception, the client result otherwise. -/
def handleSend (params : List (String × Json)) (reqId : Json)
    (sendOutcome : Except String (List (String × Json))) : List RpcOut :=
  match handleSendOutcome params sendOutcome with
  | Except.error msg => writeError reqId (-32000) msg
  | Except.ok result => writeResult reqId (Json.obj result)

/-- The dispatch parameters `_handle_message_send` builds for `_handle_send`
once validation passed, or `none` when the target or text is missing
(the `-32602` path). -/
def messageSendPlan (params : List (String × Json)) : Option (List (String × Json)) :=
  let text := jget params "text"
  let pt := parseTargetFromParams params
  if !optStrTruthy pt.1 || text.isNull then none
  else
    let channel : String := if pt.2 = some true then "group" else "private"
    let message := Json.arr [Json.obj [("type", Json.str "text"), ("data", Json.obj [("text", text)])]]
    some
      [("channel", Json.str channel),
       ("group_id", if channel = "group" then Json.str ((pt.1).getD "") else Json.null),
       ("user_id", if channel = "private" then Json.str ((pt.1).getD "") else Json.null),
       ("message", message),
       ("napcat_url", jget params "napcat_url"),
       ("timeout", jget params "timeout")]

/-- `RpcServer._handle_message_send`: validate, then delegate to
`_handle_send` on the built parameters. -/
def handleMessageSend (params : List (String × Json)) (reqId : Json)
    (sendOutcome : Except String (List (String × Json))) : List RpcOut :=
  match messageSendPlan params with
  | none => writeError reqId (-32602) "to/chatId and text are required"
  | some sendParams => handleSend sendParams reqId sendOutcome

/-- `RpcServer._handle_request`: dispatch one decoded request to its handler;
unknown methods get the `-32601` error. -/
def handleRequest (st : ServerState) (envUrl : Option String)
    (request : List (String × Json))
    (sendOutcome : Except String (List (String × Json))) : ServerState × List RpcOut :=
  let method := jget request "method"
  let reqId := jget request "id"
  let params := (pyOr (jget request "params") (Json.obj [])).asObj
  if method.isStrEq "initialize" then
    (st, writeResult reqId (Json.obj
      [("capabilities", Json.obj [("streaming", Json.bool true), ("attachments", Json.bool true)])]))
  else if method.isStrEq "watch.subscribe" then
    handleSubscribe st envUrl params reqId
  else if method.isStrEq "watch.unsubscribe" then
    handleUnsubscribe st params reqId
  else if method.isStrEq "message.send" then
    (st, handleMessageSend params reqId sendOutcome)
  else if method.isStrEq "send" then
    (st, handleSend params reqId sendOutcome)
  else if method.isStrEq "messages.history" then
    (st, writeResult reqId (Json.obj [("messages", Json.arr [])]))
  else if method.isStrEq "chats.list" then
    (st, writeResult reqId (Json.arr []))
  else
    (st, writeError reqId (-32601) "Method not found")

/-! ### Concrete fixtures used in counterexamples and witnesses -/

/-- An inbound frame carrying no correlation token at all (a plain message
event as delivered by the gateway). -/
def frameNoEcho : List (String × Json) :=
  [("post_type", Json.str "message"), ("user_id", Json.num 42)]

/-- A lifecycle frame. -/
def metaFrame : List (String × Json) :=
  [("post_type", Json.str "meta_event"), ("meta_event_type", Json.str "heartbeat")]

/-- A reply frame bearing the token "tok-1". -/
def frameTok1 : List (String × Json) :=
  [("status", Json.str "ok"), ("retcode", Json.num 0), ("echo", Json.str "tok-1")]

/-- An ASR environment in which every external stage succeeds and the
transcription is "hello". -/
def asrEnvOk : AsrEnv :=
  { hasCreds := true, fetchResult := Except.ok [1, 2, 3], recognizeResult := Except.ok "hello" }

/-- A group message event whose only text segment is "/new". -/
def eventSlashNew : List (String × Json) :=
  [("post_type", Json.str "message"), ("message_type", Json.str "group"),
   ("group_id", Json.str "100"), ("user_id", Json.num 7),
   ("message", Json.arr [Json.obj
     [("type", Json.str "text"), ("data", Json.obj [("text", Json.str "/new")])]]),
   ("message_id", Json.num 1)]

/-- A group message event whose only text segment is "/foo". -/
def eventSlashFoo : List (String × Json) :=
  [("post_type", Json.str "message"), ("message_type", Json.str "group"),
   ("group_id", Json.str "100"), ("user_id", Json.num 7),
   ("message", Json.arr [Json.obj
     [("type", Json.str "text"), ("data", Json.obj [("text", Json.str "/foo")])]]),
   ("message_id", Json.num 1)]

/-- Failure modes of the voice resolution stage: missing credentials, an
exception while materializing the voice bytes, empty materialized bytes, or
an exception in the transcription call. -/
def asrStageFails (env : AsrEnv) : Prop :=
  env.hasCreds = false ∨ env.fetchResult = Except.error () ∨
    env.fetchResult = Except.ok [] ∨ env.recognizeResult = Except.error ()

/-- An ASR environment with no Tencent credentials configured. -/
def asrEnvNoCreds : AsrEnv :=
  { hasCreds := false, fetchResult := Except.ok [1, 2, 3], recognizeResult := Except.ok "hello" }

/-- A private message event holding only a voice (record) segment. -/
def eventVoiceOnly : List (String × Json) :=
  [("post_type", Json.str "message"), ("message_type", Json.str "private"),
   ("user_id", Json.num 7),
   ("message", Json.arr [Json.obj
     [("type", Json.str "record"), ("data", Json.obj [("file", Json.str "v.mp3")])]]),
   ("message_id", Json.num 3)]

/-- A group message event whose text segment is only a CQ face code, plus a
voice segment. -/
def eventCqVoice : List (String × Json) :=
  [("post_type", Json.str "message"), ("message_type", Json.str "group"),
   ("group_id", Json.str "100"), ("user_id", Json.num 7),
   ("message", Json.arr
     [Json.obj [("type", Json.str "text"),
        ("data", Json.obj [("text", Json.str "[CQ:face,id=1]")])],
      Json.obj [("type", Json.str "record"),
        ("data", Json.obj [("file", Json.str "a.mp3")])]]),
   ("message_id", Json.num 2)]

/-! ### C1 — tokenless or mismatching frames and the wait loop -/

/-- Claim C1 (corrected).  The wait loop indeed never returns a frame whose
token is truthy and differs from the awaited one, but — contrary to the claim
as stated — a frame carrying no token at all CAN be consumed as the reply:
the accepted frame bears either the matching token or a falsy/absent token. -/
theorem c1_wait_returns_matching_or_tokenless (echo : String)
    (frames : List (List (String × Json))) (f : List (String × Json))
    (h : waitForResponse echo frames = some f) :
    (jget f "echo").truthy = false ∨ (jget f "echo").isStrEq echo = true := by
  induction frames with
  | nil => simp [waitForResponse] at h
  | cons g rest ih =>
    rw [waitForResponse] at h
    split at h
    · exact ih h
    · split at h
      · exact ih h
      · rename_i hguard
        cases h
        by_cases ht : (jget f "echo").truthy = true
        · by_cases hs : (jget f "echo").isStrEq echo = true
          · exact Or.inr hs
          · exact absurd (by simp [ht, Bool.not_eq_true] at hs ⊢; exact hs) hguard
        · exact Or.inl (by simpa using ht)

/-- Witness for C1: on a stream holding a mismatching-token frame and then the
matching reply, the loop returns the matching frame, which satisfies the
amended conclusion. -/
theorem c1_witness :
    waitForResponse "tok-1" [[("echo", Json.str "other")], frameTok1] = some frameTok1 ∧
      ((jget frameTok1 "echo").truthy = false ∨ (jget frameTok1 "echo").isStrEq "tok-1" = true) :=
  ⟨rfl, c1_wait_returns_matching_or_tokenless "tok-1"
    [[("echo", Json.str "other")], frameTok1] frameTok1 rfl⟩

/-- Counterexample for C1 as frozen: a frame with no `echo` key at all is
returned by `_wait_for_response` as the command reply, although its token is
absent (and in particular does not match the outstanding token "tok-1"). -/
theorem c1_counterexample :
    waitForResponse "tok-1" [frameNoEcho] = some frameNoEcho ∧
      jget frameNoEcho "echo" = Json.null ∧
      (jget frameNoEcho "echo").isStrEq "tok-1" = false :=
  ⟨rfl, rfl, rfl⟩

/-! ### C5 — meta frames are always discarded -/

/-- Claim C5.  A frame tagged `post_type = "meta_event"` is never returned by
the correlation wait loop, is dropped by the watch pipeline, and is never
accepted by the voice-materialization poll loop. -/
theorem c5_meta_frames_discarded :
    (∀ (echo : String) (frames : List (List (String × Json))) (f : List (String × Json)),
        waitForResponse echo frames = some f →
        (jget f "post_type").isStrEq "meta_event" = false) ∧
    (∀ (fromGroup fromUser : Option String) (ignorePrefixes : List String) (env : AsrEnv)
        (e : List (String × Json)),
        (jget e "post_type").isStrEq "meta_event" = true →
        watchStep fromGroup fromUser ignorePrefixes env (Json.obj e) = none) ∧
    (∀ (echo : String) (c : Json),
        (jgetJ c "post_type").isStrEq "meta_event" = true →
        fetchVoiceAccepts echo c = false) := by
  refine ⟨?_, ?_, ?_⟩
  · intro echo frames f h
    induction frames with
    | nil => simp [waitForResponse] at h
    | cons g rest ih =>
      rw [waitForResponse] at h
      split at h
      · exact ih h
      · split at h
        · exact ih h
        · rename_i hmeta _
          cases h
          exact Bool.not_eq_true _ ▸ by simpa using hmeta
  · intro fromGroup fromUser ignorePrefixes env e hmeta
    have hne : (jget e "post_type").isStrEq "message" = false := by
      cases hv : jget e "post_type" <;> simp_all [Json.isStrEq]
    simp [watchStep, watchStepObj, hne]
  · intro echo c hmeta
    cases c <;> simp_all [fetchVoiceAccepts, jgetJ]

/-- Witness for C5: the concrete meta frame is skipped by the wait loop (the
later matching frame is returned instead), dropped by the watch step, and
rejected by the voice poll loop. -/
theorem c5_witness :
    (jget (waitForResponse "tok-1" [metaFrame, frameTok1]).iget "post_type").isStrEq
        "meta_event" = false ∧
      watchStep none none ["/"] asrEnvOk (Json.obj metaFrame) = none ∧
      fetchVoiceAccepts "tok-1" (Json.obj metaFrame) = false := by
  refine ⟨?_, ?_, ?_⟩
  · exact c5_meta_frames_discarded.1 "tok-1" [metaFrame, frameTok1] frameTok1 rfl
  · exact c5_meta_frames_discarded.2.1 none none ["/"] asrEnvOk metaFrame rfl
  · exact c5_meta_frames_discarded.2.2 "tok-1" (Json.obj metaFrame) rfl

/-! ### C6 — timeout is a structured outcome -/

/-- Claim C6.  When no matching reply arrives before the stream is exhausted
(the timeout path), `send_command` returns the structured mapping with
`status = "timeout"` carrying the original correlation token under `echo`,
rather than raising. -/
theorem c6_timeout_structured (c : Command) (frames : List (List (String × Json)))
    (h : waitForResponse c.echo frames = none) :
    sendCommand c frames = timeoutResult c.echo ∧
      jget (sendCommand c frames) "status" = Json.str "timeout" ∧
      jget (sendCommand c frames) "echo" = Json.str c.echo := by
  unfold sendCommand
  rw [h]
  exact ⟨rfl, rfl, rfl⟩

/-- Witness for C6: a command whose stream delivers only a meta frame times
out and yields the structured timeout mapping. -/
theorem c6_witness :
    sendCommand { action := CommandType.sendPrivateMsg, params := [], echo := "tok-9" }
        [metaFrame] = timeoutResult "tok-9" ∧
      jget (sendCommand { action := CommandType.sendPrivateMsg, params := [], echo := "tok-9" }
        [metaFrame]) "status" = Json.str "timeout" ∧
      jget (sendCommand { action := CommandType.sendPrivateMsg, params := [], echo := "tok-9" }
        [metaFrame]) "echo" = Json.str "tok-9" :=
  c6_timeout_structured
    { action := CommandType.sendPrivateMsg, params := [], echo := "tok-9" } [metaFrame] rfl

/-! ### C2 — ignore prefixes have no passthrough exemption -/

/-- Helper: once cleaned text is known to be prefix-blocked, the text gate of
the watch loop drops the event. -/
theorem textGate_blocked (t : String) (r : Option String) (ignorePrefixes : List String)
    (ht : t.isEmpty = false)
    (hb : prefixBlocked ignorePrefixes (stripCqAndWhitespace t) = true) :
    textGate (some t) r ignorePrefixes = none := by
  unfold textGate
  have htruthy : optStrTruthy (some t) = true := by simp [optStrTruthy, ht]
  rw [if_pos htruthy]
  simp only [Option.getD_some]
  split <;> simp [hb]

/-- Claim C2 (corrected).  Whenever the extracted text is truthy and its
cleaned form has a first non-blank line starting with a configured ignored
prefix, the watch loop drops the event — there is no passthrough set of
control commands; in particular "/new" is dropped exactly like "/foo" under
`ignore_prefixes = ["/"]`. -/
theorem c2_prefix_always_drops (fromGroup fromUser : Option String)
    (ignorePrefixes : List String) (env : AsrEnv) (event : List (String × Json)) (t : String)
    (hextract : (extractTextAndRecord event).1 = some t)
    (ht : t.isEmpty = false)
    (hb : prefixBlocked ignorePrefixes (stripCqAndWhitespace t) = true) :
    watchStep fromGroup fromUser ignorePrefixes env (Json.obj event) = none := by
  show watchStepObj fromGroup fromUser ignorePrefixes env event = none
  unfold watchStepObj
  split
  · rfl
  · split
    · rfl
    · split
      · rfl
      · rw [hextract, textGate_blocked t _ ignorePrefixes ht hb]

/-- Witness for C2: the "/foo" event under `ignore_prefixes = ["/"]` is
dropped, via the corrected theorem. -/
theorem c2_witness :
    watchStep none none ["/"] asrEnvOk (Json.obj eventSlashFoo) = none :=
  c2_prefix_always_drops none none ["/"] asrEnvOk eventSlashFoo "/foo" rfl rfl rfl

/-- Counterexample for C2 as frozen: the event whose text is exactly "/new"
IS dropped by the watch loop under `ignore_prefixes = ["/"]` (the claim says
it bypasses the filter), even with every voice/ASR stage able to succeed. -/
theorem c2_counterexample :
    (extractTextAndRecord eventSlashNew).1 = some "/new" ∧
      watchStep none none ["/"] asrEnvOk (Json.obj eventSlashNew) = none :=
  ⟨rfl, rfl⟩

/-! ### C3 — voice transcription failures silently drop the event -/

/-- Helper: the text gate for falsy extracted text reduces to the voice
check. -/
theorem textGate_falsy (t0 r0 : Option String) (ignorePrefixes : List String)
    (ht : optStrTruthy t0 = false) :
    textGate t0 r0 ignorePrefixes = if !optStrTruthy r0 then none else some t0 := by
  unfold textGate
  rw [if_neg (by simp [ht])]

/-- Claim C3.  Under any failure of the voice stage, `_resolve_text` yields
`none` (it is a total function, so no error propagates), and the watch loop
emits no record for an event without truthy text: the event is silently
dropped. -/
theorem c3_voice_failure_drops (env : AsrEnv) (hfail : asrStageFails env) :
    (∀ t r : Option String, optStrTruthy t = false → resolveText t r env = none) ∧
    (∀ (fromGroup fromUser : Option String) (ignorePrefixes : List String)
        (event : List (String × Json)),
        optStrTruthy (extractTextAndRecord event).1 = false →
        watchStep fromGroup fromUser ignorePrefixes env (Json.obj event) = none) := by
  unfold asrStageFails at hfail
  have hres : ∀ t r : Option String, optStrTruthy t = false → resolveText t r env = none := by
    intro t r ht
    unfold resolveText
    rw [if_neg (by simp [ht])]
    split
    · rfl
    · rcases hfail with h | h | h | h
      · simp [h]
      · simp [h]
      · simp [h]
      · cases hf : env.fetchResult <;> simp [h, hf]
  refine ⟨hres, ?_⟩
  intro fromGroup fromUser ignorePrefixes event ht
  show watchStepObj fromGroup fromUser ignorePrefixes env event = none
  unfold watchStepObj
  split
  · rfl
  · split
    · rfl
    · split
      · rfl
      · rw [textGate_falsy _ _ _ ht]
        by_cases hr : optStrTruthy (extractTextAndRecord event).2 = true
        · simp only [hr, Bool.not_true, if_neg Bool.false_ne_true]
          unfold emitPhase
          rw [hres _ _ ht]
          rw [if_neg (by simp [optStrTruthy])]
          rw [if_pos (by simp [ht])]
        · simp [Bool.not_eq_true] at hr
          simp [hr]

/-- Witness for C3: with missing credentials, the voice-only event resolves to
no text and is dropped without any error. -/
theorem c3_witness :
    asrStageFails asrEnvNoCreds ∧
      resolveText none (some "v.mp3") asrEnvNoCreds = none ∧
      watchStep none none ["/"] asrEnvNoCreds (Json.obj eventVoiceOnly) = none :=
  ⟨Or.inl rfl,
   (c3_voice_failure_drops asrEnvNoCreds (Or.inl rfl)).1 none (some "v.mp3") rfl,
   (c3_voice_failure_drops asrEnvNoCreds (Or.inl rfl)).2 none none ["/"] eventVoiceOnly rfl⟩

/-! ### C4 — empty-after-stripping text versus voice segments -/

/-- Helper: truthy text that cleans to the empty string makes the text gate
drop the event, whatever the voice segment is. -/
theorem textGate_cleanedEmpty (t : String) (r : Option String)
    (ignorePrefixes : List String) (ht : t.isEmpty = false)
    (hclean : (stripCqAndWhitespace t).isEmpty = true) :
    textGate (some t) r ignorePrefixes = none := by
  unfold textGate
  rw [if_pos (by simp [optStrTruthy, ht])]
  simp only [Option.getD_some]
  rw [if_pos hclean]

/-- Claim C4 (corrected).  When the extracted text is truthy but strips to
empty, the event is dropped REGARDLESS of a voice segment being present; only
when there is no truthy text at all does the voice segment decide: no voice
drops the event, a voice segment makes it proceed to voice resolution (and be
emitted when resolution succeeds). -/
theorem c4_empty_text_voice :
    (∀ (fromGroup fromUser : Option String) (ignorePrefixes : List String) (env : AsrEnv)
        (event : List (String × Json)) (t : String) (r : Option String),
        extractTextAndRecord event = (some t, r) → t.isEmpty = false →
        (stripCqAndWhitespace t).isEmpty = true →
        watchStep fromGroup fromUser ignorePrefixes env (Json.obj event) = none) ∧
    (∀ (fromGroup fromUser : Option String) (ignorePrefixes : List String) (env : AsrEnv)
        (event : List (String × Json)),
        optStrTruthy (extractTextAndRecord event).1 = false →
        optStrTruthy (extractTextAndRecord event).2 = false →
        watchStep fromGroup fromUser ignorePrefixes env (Json.obj event) = none) ∧
    (∀ (fromGroup fromUser : Option String) (ignorePrefixes : List String) (env : AsrEnv)
        (event : List (String × Json)) (t r : Option String) (s : String),
        (jget event "post_type").isStrEq "message" = true →
        fromFilterBlocks fromGroup (jget event "group_id") = false →
        fromFilterBlocks fromUser (jget event "user_id") = false →
        extractTextAndRecord event = (t, r) →
        optStrTruthy t = false → optStrTruthy r = true →
        resolveText t r env = some s → s.isEmpty = false →
        watchStep fromGroup fromUser ignorePrefixes env (Json.obj event) =
          some (filterKeep (setField event "raw_message" (Json.str s)))) := by
  refine ⟨?_, ?_, ?_⟩
  · intro fromGroup fromUser ignorePrefixes env event t r hex ht hclean
    show watchStepObj fromGroup fromUser ignorePrefixes env event = none
    unfold watchStepObj
    split
    · rfl
    · split
      · rfl
      · split
        · rfl
        · rw [hex]
          rw [textGate_cleanedEmpty t r ignorePrefixes ht hclean]
  · intro fromGroup fromUser ignorePrefixes env event ht hr
    show watchStepObj fromGroup fromUser ignorePrefixes env event = none
    unfold watchStepObj
    split
    · rfl
    · split
      · rfl
      · split
        · rfl
        · rw [textGate_falsy _ _ _ ht]
          simp [hr]
  · intro fromGroup fromUser ignorePrefixes env event t r s hpt hfg hfu hex ht hr hres hs
    show watchStepObj fromGroup fromUser ignorePrefixes env event =
      some (filterKeep (setField event "raw_message" (Json.str s)))
    unfold watchStepObj
    rw [if_neg (by simp [hpt]), if_neg (by simp [hfg]), if_neg (by simp [hfu])]
    rw [hex]
    rw [textGate_falsy _ _ _ ht]
    rw [if_neg (by simp [hr])]
    unfold emitPhase
    dsimp only
    rw [hres]
    rw [if_pos (by simp [optStrTruthy, hs])]
    simp only [Option.getD_some]

/-- Counterexample for C4 as frozen: this event carries a voice segment, its
text strips to empty, and the watch loop drops it anyway (the claim says an
event with a voice segment is NOT dropped at this step), even with every
voice/ASR stage able to succeed. -/
theorem c4_counterexample :
    (extractTextAndRecord eventCqVoice).2 = some "a.mp3" ∧
      stripCqAndWhitespace "[CQ:face,id=1]" = "" ∧
      watchStep none none [] asrEnvOk (Json.obj eventCqVoice) = none :=
  ⟨rfl, rfl, rfl⟩

/-- Witness for C4: a voice-only event proceeds to voice resolution and, when
transcription succeeds with "hello", is emitted with `raw_message = "hello"`. -/
theorem c4_witness :
    watchStep none none ["/"] asrEnvOk (Json.obj eventVoiceOnly) =
      some (filterKeep (setField eventVoiceOnly "raw_message" (Json.str "hello"))) :=
  c4_empty_text_voice.2.2 none none ["/"] asrEnvOk eventVoiceOnly none (some "v.mp3")
    "hello" rfl rfl rfl rfl rfl rfl rfl rfl

/-! ### C7 — chatId routing in message.send -/

/-- Claim C7.  A `chatId` of "group-42" parses to a group send targeting id
"42" and the built dispatch routes it on the group channel; a bare `chatId`
of "77" parses with no group flag and routes as a private send targeting id
"77". -/
theorem c7_chat_id_routing :
    parseTargetFromParams [("chatId", Json.str "group-42"), ("text", Json.str "hi")] =
        (some "42", some true) ∧
      parseTargetFromParams [("chatId", Json.str "77"), ("text", Json.str "hi")] =
        (some "77", none) ∧
      (messageSendPlan [("chatId", Json.str "group-42"), ("text", Json.str "hi")]).map
          (fun p => (jget p "channel", jget p "group_id")) =
        some (Json.str "group", Json.str "42") ∧
      (messageSendPlan [("chatId", Json.str "77"), ("text", Json.str "hi")]).map
          (fun p => (jget p "channel", jget p "user_id")) =
        some (Json.str "private", Json.str "77") :=
  ⟨rfl, rfl, rfl, rfl⟩

/-! ### C9 — unsubscribe is idempotent and benign -/

/-- Claim C9.  Unsubscribing the same id twice answers the benign ok object
both times (the handler is a total function, so it neither throws nor hangs),
and the second cancellation is a no-op on the server state. -/
theorem c9_unsubscribe_idempotent (st : ServerState) (subId : Int) (reqId : Json)
    (hid : reqId.isNull = false) :
    (handleUnsubscribe st [("subscription", Json.num subId)] reqId).2 =
        [RpcOut.result reqId (Json.obj [("ok", Json.bool true)])] ∧
      (handleUnsubscribe
          (handleUnsubscribe st [("subscription", Json.num subId)] reqId).1
          [("subscription", Json.num subId)] reqId).2 =
        [RpcOut.result reqId (Json.obj [("ok", Json.bool true)])] ∧
      (handleUnsubscribe
          (handleUnsubscribe st [("subscription", Json.num subId)] reqId).1
          [("subscription", Json.num subId)] reqId).1 =
        (handleUnsubscribe st [("subscription", Json.num subId)] reqId).1 := by
  have hparse : pyToInt (jget [("subscription", Json.num subId)] "subscription") =
      some subId := rfl
  refine ⟨?_, ?_, ?_⟩
  · unfold handleUnsubscribe
    rw [hparse]
    simp [writeResult, hid]
  · unfold handleUnsubscribe
    rw [hparse]
    simp [writeResult, hid]
  · unfold handleUnsubscribe
    rw [hparse]
    simp [cancelSubscription, List.filter_filter]

/-- Witness for C9: a server holding subscriptions 1 and 2 answers two
unsubscribe calls for id 1 with the ok object and ends up, both times, with
only subscription 2. -/
theorem c9_witness :
    (handleUnsubscribe { watchTasks := [1, 2], nextSubscriptionId := 3 }
        [("subscription", Json.num 1)] (Json.num 10)).2 =
        [RpcOut.result (Json.num 10) (Json.obj [("ok", Json.bool true)])] ∧
      (handleUnsubscribe
          (handleUnsubscribe { watchTasks := [1, 2], nextSubscriptionId := 3 }
            [("subscription", Json.num 1)] (Json.num 10)).1
          [("subscription", Json.num 1)] (Json.num 10)).2 =
        [RpcOut.result (Json.num 10) (Json.obj [("ok", Json.bool true)])] :=
  ⟨(c9_unsubscribe_idempotent { watchTasks := [1, 2], nextSubscriptionId := 3 } 1
      (Json.num 10) rfl).1,
   (c9_unsubscribe_idempotent { watchTasks := [1, 2], nextSubscriptionId := 3 } 1
      (Json.num 10) rfl).2.1⟩

/-! ### C10 — notifications (null/absent id) never get a response -/

/-- Helper: a null request id suppresses result lines. -/
theorem writeResult_null (reqId : Json) (res : Json) (h : reqId.isNull = true) :
    writeResult reqId res = [] := by
  simp [writeResult, h]

/-- Helper: a null request id suppresses error lines. -/
theorem writeError_null (reqId : Json) (code : Int) (msg : String)
    (h : reqId.isNull = true) : writeError reqId code msg = [] := by
  simp [writeError, h]

/-- Helper: `_handle_send` writes nothing for a null request id. -/
theorem handleSend_null (params : List (String × Json)) (reqId : Json)
    (o : Except String (List (String × Json))) (h : reqId.isNull = true) :
    handleSend params reqId o = [] := by
  unfold handleSend
  split
  · exact writeError_null _ _ _ h
  · exact writeResult_null _ _ h

/-- Helper: `_handle_message_send` writes nothing for a null request id. -/
theorem handleMessageSend_null (params : List (String × Json)) (reqId : Json)
    (o : Except String (List (String × Json))) (h : reqId.isNull = true) :
    handleMessageSend params reqId o = [] := by
  unfold handleMessageSend
  split
  · exact writeError_null _ _ _ h
  · exact handleSend_null _ _ _ h

/-- Helper: `_handle_unsubscribe` writes nothing for a null request id. -/
theorem handleUnsubscribe_null (st : ServerState) (params : List (String × Json))
    (reqId : Json) (h : reqId.isNull = true) :
    (handleUnsubscribe st params reqId).2 = [] := by
  unfold handleUnsubscribe
  split
  · exact writeError_null _ _ _ h
  · exact writeResult_null _ _ h

/-- Helper: `_handle_subscribe` writes nothing for a null request id. -/
theorem handleSubscribe_null (st : ServerState) (envUrl : Option String)
    (params : List (String × Json)) (reqId : Json) (h : reqId.isNull = true) :
    (handleSubscribe st envUrl params reqId).2 = [] := by
  unfold handleSubscribe
  split
  · exact writeError_null _ _ _ h
  · exact writeResult_null _ _ h

/-- Claim C10.  A request whose id is absent or null (a notification) produces
no response line at all — neither a result nor an error object — whatever the
method, the params and the outcome of any send it triggers. -/
theorem c10_notification_no_response (st : ServerState) (envUrl : Option String)
    (request : List (String × Json)) (sendOutcome : Except String (List (String × Json)))
    (hid : (jget request "id").isNull = true) :
    (handleRequest st envUrl request sendOutcome).2 = [] := by
  unfold handleRequest
  dsimp only
  split
  · exact writeResult_null _ _ hid
  · split
    · exact handleSubscribe_null _ _ _ _ hid
    · split
      · exact handleUnsubscribe_null _ _ _ hid
      · split
        · exact handleMessageSend_null _ _ _ hid
        · split
          · exact handleSend_null _ _ _ hid
          · split
            · exact writeResult_null _ _ hid
            · split
              · exact writeResult_null _ _ hid
              · exact writeError_null _ _ _ hid

/-- Witness for C10: a request without an id, naming an unknown method, gets
no response line. -/
theorem c10_witness :
    (handleRequest { watchTasks := [], nextSubscriptionId := 1 } none
        [("method", Json.str "bogus.method"), ("params", Json.obj [])]
        (Except.ok [])).2 = [] :=
  c10_notification_no_response { watchTasks := [], nextSubscriptionId := 1 } none
    [("method", Json.str "bogus.method"), ("params", Json.obj [])] (Except.ok []) rfl

/-! ### C8 — structured error codes, serve loop never crashes -/

/-- Helper: the `params = request.get("params") or {}` normalization is the
identity on object params. -/
theorem pyOr_obj_asObj (l : List (String × Json)) :
    (pyOr (Json.obj l) (Json.obj [])).asObj = l := by
  cases l <;> simp [pyOr, Json.truthy, Json.asObj]

/-- Helper: with a raising client, the try block of `_handle_send` always
ends in a raised exception (its own validation errors or the client error). -/
theorem handleSendOutcome_error (params : List (String × Json)) (msg : String) :
    ∃ m, handleSendOutcome params (Except.error msg) = Except.error m := by
  unfold handleSendOutcome
  dsimp only
  repeat' split
  all_goals exact ⟨_, rfl⟩

/-- Helper: with a raising client, `_handle_send` answers a `-32000` error
response on a non-null request id. -/
theorem handleSend_error_code (params : List (String × Json)) (reqId : Json)
    (msg : String) (hid : reqId.isNull = false) :
    ∃ m, handleSend params reqId (Except.error msg) =
      [RpcOut.rpcError reqId (-32000) m] := by
  obtain ⟨m, hm⟩ := handleSendOutcome_error params msg
  refine ⟨m, ?_⟩
  unfold handleSend
  rw [hm]
  simp [writeError, hid]

/-- Helper: a missing target or missing text makes the message.send plan
fail. -/
theorem messageSendPlan_none (params : List (String × Json))
    (hbad : (!optStrTruthy (parseTargetFromParams params).1 ||
      (jget params "text").isNull) = true) :
    messageSendPlan params = none := by
  unfold messageSendPlan
  dsimp only
  rw [if_pos hbad]

/-- Claim C8.  For requests bearing a non-null id: an unknown method is
answered with error code -32601; a message.send without a usable target or
without text is answered with -32602; a send whose handling fails internally
(here: the client call raising) is answered with -32000.  Every handler in
the model is a total function, mirroring the catch-all of the serve loop: no
request input crashes it. -/
theorem c8_error_codes :
    (∀ (st : ServerState) (envUrl : Option String)
        (oracle : Except String (List (String × Json))) (idJ pJ : Json) (m : String),
        idJ.isNull = false →
        m ≠ "initialize" → m ≠ "watch.subscribe" → m ≠ "watch.unsubscribe" →
        m ≠ "message.send" → m ≠ "send" → m ≠ "messages.history" → m ≠ "chats.list" →
        (handleRequest st envUrl [("id", idJ), ("method", Json.str m), ("params", pJ)]
            oracle).2 =
          [RpcOut.rpcError idJ (-32601) "Method not found"]) ∧
    (∀ (st : ServerState) (envUrl : Option String)
        (oracle : Except String (List (String × Json))) (idJ : Json)
        (params : List (String × Json)),
        idJ.isNull = false →
        (!optStrTruthy (parseTargetFromParams params).1 ||
          (jget params "text").isNull) = true →
        (handleRequest st envUrl
            [("id", idJ), ("method", Json.str "message.send"), ("params", Json.obj params)]
            oracle).2 =
          [RpcOut.rpcError idJ (-32602) "to/chatId and text are required"]) ∧
    (∀ (st : ServerState) (envUrl : Option String) (msg : String) (idJ : Json)
        (params : List (String × Json)),
        idJ.isNull = false →
        ∃ m, (handleRequest st envUrl
            [("id", idJ), ("method", Json.str "send"), ("params", Json.obj params)]
            (Except.error msg)).2 =
          [RpcOut.rpcError idJ (-32000) m]) := by
  refine ⟨?_, ?_, ?_⟩
  · intro st envUrl oracle idJ pJ m hid h1 h2 h3 h4 h5 h6 h7
    unfold handleRequest
    dsimp only
    have hm : jget [("id", idJ), ("method", Json.str m), ("params", pJ)] "method" =
        Json.str m := rfl
    have hi : jget [("id", idJ), ("method", Json.str m), ("params", pJ)] "id" = idJ := rfl
    rw [hm, hi]
    rw [if_neg (by simp [Json.isStrEq, h1]), if_neg (by simp [Json.isStrEq, h2]),
      if_neg (by simp [Json.isStrEq, h3]), if_neg (by simp [Json.isStrEq, h4]),
      if_neg (by simp [Json.isStrEq, h5]), if_neg (by simp [Json.isStrEq, h6]),
      if_neg (by simp [Json.isStrEq, h7])]
    simp [writeError, hid]
  · intro st envUrl oracle idJ params hid hbad
    unfold handleRequest
    dsimp only
    have hm : jget [("id", idJ), ("method", Json.str "message.send"),
        ("params", Json.obj params)] "method" = Json.str "message.send" := rfl
    have hi : jget [("id", idJ), ("method", Json.str "message.send"),
        ("params", Json.obj params)] "id" = idJ := rfl
    have hp : jget [("id", idJ), ("method", Json.str "message.send"),
        ("params", Json.obj params)] "params" = Json.obj params := rfl
    rw [hm, hi, hp]
    rw [if_neg (by simp [Json.isStrEq]), if_neg (by simp [Json.isStrEq]),
      if_neg (by simp [Json.isStrEq]), if_pos (by simp [Json.isStrEq])]
    dsimp only
    rw [pyOr_obj_asObj]
    unfold handleMessageSend
    rw [messageSendPlan_none params hbad]
    simp [writeError, hid]
  · intro st envUrl msg idJ params hid
    unfold handleRequest
    dsimp only
    have hm : jget [("id", idJ), ("method", Json.str "send"),
        ("params", Json.obj params)] "method" = Json.str "send" := rfl
    have hi : jget [("id", idJ), ("method", Json.str "send"),
        ("params", Json.obj params)] "id" = idJ := rfl
    have hp : jget [("id", idJ), ("method", Json.str "send"),
        ("params", Json.obj params)] "params" = Json.obj params := rfl
    rw [hm, hi, hp]
    rw [if_neg (by simp [Json.isStrEq]), if_neg (by simp [Json.isStrEq]),
      if_neg (by simp [Json.isStrEq]), if_neg (by simp [Json.isStrEq]),
      if_pos (by simp [Json.isStrEq])]
    dsimp only
    rw [pyOr_obj_asObj]
    exact handleSend_error_code params idJ msg hid

/-- Witness for C8: a concrete unknown method gets -32601, a message.send
without text gets -32602, and a group send with a raising client gets a
-32000 error. -/
theorem c8_witness :
    (handleRequest { watchTasks := [], nextSubscriptionId := 1 } none
        [("id", Json.num 5), ("method", Json.str "bogus.method"), ("params", Json.obj [])]
        (Except.ok [])).2 =
      [RpcOut.rpcError (Json.num 5) (-32601) "Method not found"] ∧
    (handleRequest { watchTasks := [], nextSubscriptionId := 1 } none
        [("id", Json.num 6), ("method", Json.str "message.send"),
         ("params", Json.obj [("chatId", Json.str "77")])]
        (Except.ok [])).2 =
      [RpcOut.rpcError (Json.num 6) (-32602) "to/chatId and text are required"] ∧
    ∃ m, (handleRequest { watchTasks := [], nextSubscriptionId := 1 } none
        [("id", Json.num 7), ("method", Json.str "send"),
         ("params", Json.obj [("channel", Json.str "group"), ("group_id", Json.str "42"),
           ("message", Json.arr [Json.str "x"])])]
        (Except.error "connection refused")).2 =
      [RpcOut.rpcError (Json.num 7) (-32000) m] :=
  ⟨c8_error_codes.1 { watchTasks := [], nextSubscriptionId := 1 } none (Except.ok [])
      (Json.num 5) (Json.obj []) "bogus.method" rfl
      (by decide) (by decide) (by decide) (by decide) (by decide) (by decide) (by decide),
   c8_error_codes.2.1 { watchTasks := [], nextSubscriptionId := 1 } none (Except.ok [])
      (Json.num 6) [("chatId", Json.str "77")] rfl rfl,
   c8_error_codes.2.2 { watchTasks := [], nextSubscriptionId := 1 } none
      "connection refused" (Json.num 7)
      [("channel", Json.str "group"), ("group_id", Json.str "42"),
        ("message", Json.arr [Json.str "x"])] rfl⟩
